import Mathlib

/-!
Shallow embedding of the pathway enrichment report workflow (wf/__init__.py).

Python strings are modelled as Lean `String`; the Python string operations
used by the code (split, strip, startswith, endswith, removesuffix, slicing
by a format precision) are defined below over the underlying character lists
so that they evaluate by kernel reduction. Python dicts keyed by strings are
modelled as association lists with insertion-order-preserving,
last-write-wins update semantics (`dictInsert` / `dictOfList` / `dictGet`),
matching CPython dict behaviour. CSV rows are records of the string values
of the named columns, exactly as produced by csv.DictReader (which never
converts fields to numbers). Floating point coordinates are modelled as
rationals: every claim about them is a statement of the algebraic form of
the computed expressions, which is identical in both models.
-/

namespace PathwayWf

/-- Membership-test used below: does the association list hold the key. -/
def dictHasKey {α : Type} (d : List (String × α)) (k : String) : Bool :=
  d.any (fun p => p.1 = k)

/-- CPython dict assignment `d[k] = v` on an association list: if the key is
present its value is updated in place (insertion order unchanged), otherwise
the pair is appended. -/
def dictInsert {α : Type} (d : List (String × α)) (k : String) (v : α) :
    List (String × α) :=
  if dictHasKey d k then d.map (fun p => if p.1 = k then (k, v) else p)
  else d ++ [(k, v)]

/-- CPython `dict(pairs)`: successive assignment of each pair. -/
def dictOfList {α : Type} (l : List (String × α)) : List (String × α) :=
  l.foldl (fun d kv => dictInsert d kv.1 kv.2) []

/-- CPython dict lookup `d[k]` (None when absent). -/
def dictGet {α : Type} (d : List (String × α)) (k : String) : Option α :=
  (d.find? (fun p => p.1 = k)).map (fun p => p.2)

/-- Split a character list at the first occurrence of the pattern, returning
the part before it and the part after it. -/
def splitFirst (pat : List Char) : List Char → Option (List Char × List Char)
  | [] => none
  | c :: rest =>
    if pat.isPrefixOf (c :: rest) then some ([], (c :: rest).drop pat.length)
    else (splitFirst pat rest).map (fun pr => (c :: pr.1, pr.2))

/-- Fuelled worker for `pySplitList`. -/
def pySplitListAux (pat : List Char) : Nat → List Char → List (List Char)
  | 0, s => [s]
  | fuel + 1, s =>
    match splitFirst pat s with
    | none => [s]
    | some (pre, post) => pre :: pySplitListAux pat fuel post

/-- Python `s.split(sep)` for a nonempty separator, over character lists:
split at every non-overlapping occurrence of the separator, scanning left to
right, keeping empty fields. -/
def pySplitList (pat s : List Char) : List (List Char) :=
  if pat = [] then [s] else pySplitListAux pat (s.length + 1) s

/-- Python `s.split(sep)` on strings. -/
def pySplit (sep s : String) : List String :=
  (pySplitList sep.data s.data).map (fun l => ⟨l⟩)

/-- Python `s.startswith(pre)`. -/
def pyStartsWith (pre s : String) : Bool :=
  pre.data.isPrefixOf s.data

/-- Python `s.endswith(suf)`. -/
def pyEndsWith (suf s : String) : Bool :=
  suf.data.isSuffixOf s.data

/-- Python whitespace stripped by `str.strip()`. -/
def isPySpace (c : Char) : Bool :=
  c = ' ' ∨ c = '\t' ∨ c = '\n' ∨ c = '\r' ∨ c = '\x0b' ∨ c = '\x0c'

/-- Python `s.strip()`: drop leading and trailing whitespace. -/
def pyStrip (s : String) : String :=
  ⟨((s.data.dropWhile isPySpace).reverse.dropWhile isPySpace).reverse⟩

/-- Python `s.removeprefix(p)`. -/
def pyRemoveOneAtStart (p s : String) : String :=
  if pyStartsWith p s then ⟨s.data.drop p.data.length⟩ else s

/-- Python `s.removesuffix(p)`. -/
def pyRemoveOneAtEnd (p s : String) : String :=
  if pyEndsWith p s then ⟨s.data.take (s.data.length - p.data.length)⟩ else s

/-- Python format `f"{s:.{n}}"` applied to a string value: the precision
field of a string format is a maximum size, so the string is truncated to
its first n characters. (This is what the code does to the CSV fields,
which are strings; it is not significant-digit rounding.) -/
def py_format_prec (n : Nat) (s : String) : String :=
  ⟨s.data.take n⟩

/-- Record of one row of res/KEGG/table.csv as csv.DictReader yields it:
every named column is a raw string. The column named "p.adjust" is the
field padjust. -/
structure KeggRow where
  ID : String
  Description : String
  pvalue : String
  padjust : String
  enrichmentScore : String
  NES : String
  setSize : String
  coreEnrichedGenes : String
  coreEntrezIDs : String
deriving Repr, DecidableEq

/-- The Pathway dataclass of wf/__init__.py. -/
structure Pathway where
  kegg_id : String
  name : String
  p_value : String
  p_adjusted_value : String
  enrichment_score : String
  normalized_enrichment_score : String
  gene_set_size : String
  leading_edge_size : String
  core_enriched_genes : List String
  core_entrez_ids : List String
deriving Repr, DecidableEq

/-- Body of the row loop of parse_kegg_pathway_table: builds one Pathway
from one CSV row. The f-string conversions `{row[c]:.k}` are applied to
string values, hence `py_format_prec`. -/
def parseKeggRow (row : KeggRow) : Pathway :=
  let gene_names := pySplit " " row.coreEnrichedGenes
  { kegg_id := row.ID
    name := row.Description
    p_value := py_format_prec 3 row.pvalue
    p_adjusted_value := py_format_prec 3 row.padjust
    enrichment_score := py_format_prec 6 row.enrichmentScore
    normalized_enrichment_score := py_format_prec 6 row.NES
    gene_set_size := row.setSize
    leading_edge_size := toString gene_names.length
    core_enriched_genes := gene_names
    core_entrez_ids := pySplit "/" row.coreEntrezIDs }

/-- parse_kegg_pathway_table over the list of rows of the CSV file. -/
def parse_kegg_pathway_table (rows : List KeggRow) : List Pathway :=
  rows.map parseKeggRow

/-- Record of one row of the contrast CSV: the gene column has an empty
string as its name in the source file, here it is the field gene. -/
structure ContrastRow where
  gene : String
  log2FoldChange : String
  pvalue : String
  padj : String
deriving Repr, DecidableEq

/-- One entry of the dict comprehension of parse_contrast_csv. -/
def parse_contrast_row (row : ContrastRow) : String × List String :=
  (row.gene,
   [py_format_prec 4 row.log2FoldChange,
    py_format_prec 3 row.pvalue,
    py_format_prec 3 row.padj])

/-- parse_contrast_csv over the list of rows of the contrast CSV (a dict
comprehension, so duplicate gene keys resolve last-write-wins). -/
def parse_contrast_csv (rows : List ContrastRow) : List (String × List String) :=
  dictOfList (rows.map parse_contrast_row)

/-- In parse_gene_groups, the lookup from numeric gene identifier to gene
symbol: dict(zip(core_entrez_ids, core_enriched_genes)). -/
def entrez_id_to_gene (pathway : Pathway) : List (String × String) :=
  dictOfList (pathway.core_entrez_ids.zip pathway.core_enriched_genes)

theorem find_map_update {α : Type} (d : List (String × α)) (k : String) (v : α)
    (h : dictHasKey d k = true) :
    (d.map (fun p => if p.1 = k then (k, v) else p)).find? (fun p => p.1 = k)
      = some (k, v) := by
  induction d with
  | nil => simp [dictHasKey] at h
  | cons p d ih =>
    by_cases hp : p.1 = k
    · simp [List.find?, hp]
    · have h' : dictHasKey d k = true := by
        simp [dictHasKey] at h ⊢
        rcases h with h | h
        · exact absurd h hp
        · exact h
      simpa [List.find?, hp] using ih h'

theorem find_map_update_ne {α : Type} (d : List (String × α)) (k k' : String) (v : α)
    (hne : k' ≠ k) :
    (d.map (fun p => if p.1 = k then (k, v) else p)).find? (fun p => p.1 = k')
      = d.find? (fun p => p.1 = k') := by
  induction d with
  | nil => rfl
  | cons p d ih =>
    by_cases hp : p.1 = k
    · have hpk : ¬ p.1 = k' := by
        rw [hp]; exact fun hkk => hne hkk.symm
      simp [List.find?, hp, hne.symm, hpk, ih]
    · by_cases hq : p.1 = k'
      · simp [List.find?, hp, hq, hne]
      · simp [List.find?, hp, hq, ih]

theorem find_append_single {α : Type} (d : List (String × α)) (k : String) (v : α)
    (h : dictHasKey d k = false) :
    (d ++ [(k, v)]).find? (fun p => p.1 = k) = some (k, v) := by
  induction d with
  | nil => simp [List.find?]
  | cons p d ih =>
    simp [dictHasKey] at h
    simp [List.find?, h.1, ih (by simpa [dictHasKey] using h.2)]

theorem find_append_single_ne {α : Type} (d : List (String × α)) (k k' : String) (v : α)
    (hne : k' ≠ k) :
    (d ++ [(k, v)]).find? (fun p => p.1 = k') = d.find? (fun p => p.1 = k') := by
  induction d with
  | nil => simp [List.find?, hne.symm]
  | cons p d ih =>
    by_cases hq : p.1 = k'
    · simp [List.find?, hq]
    · simp [List.find?, hq, ih]

theorem dictGet_dictInsert_self {α : Type} (d : List (String × α)) (k : String) (v : α) :
    dictGet (dictInsert d k v) k = some v := by
  unfold dictInsert
  by_cases h : dictHasKey d k = true
  · simp [h, dictGet, find_map_update d k v h]
  · have h' : dictHasKey d k = false := by
      simpa using h
    simp [h', dictGet, find_append_single d k v h']

theorem dictGet_dictInsert_ne {α : Type} (d : List (String × α)) (k k' : String) (v : α)
    (hne : k' ≠ k) :
    dictGet (dictInsert d k v) k' = dictGet d k' := by
  unfold dictInsert
  by_cases h : dictHasKey d k = true
  · simp [h, dictGet, find_map_update_ne d k k' v hne]
  · have h' : dictHasKey d k = false := by
      simpa using h
    simp [h', dictGet, find_append_single_ne d k k' v hne]

theorem dictGet_dictOfList {α : Type} (l : List (String × α)) (k : String) :
    dictGet (dictOfList l) k
      = ((l.filter (fun p => p.1 = k)).getLast?).map (fun p => p.2) := by
  induction l using List.reverseRecOn with
  | nil => rfl
  | append_singleton l kv ih =>
    have hfold : dictOfList (l ++ [kv]) = dictInsert (dictOfList l) kv.1 kv.2 := by
      simp [dictOfList, List.foldl_append]
    rw [hfold]
    by_cases hk : kv.1 = k
    · subst hk
      rw [dictGet_dictInsert_self]
      simp [List.filter_append]
    · rw [dictGet_dictInsert_ne _ _ _ _ (fun hkk => hk hkk.symm), ih]
      simp [List.filter_append, hk]

/-- C10: the identifier-to-symbol lookup that parse_gene_groups builds by
dict(zip(core_entrez_ids, core_enriched_genes)) pairs exactly the common
prefix of the two lists (zip truncates to the shorter list), resolves a
duplicated entrez id to the symbol at its last occurrence among those
pairs, and is a total construction that raises no error. -/
theorem c10_entrez_lookup_last_wins_common_prefix (p : Pathway) (k : String) :
    dictGet (entrez_id_to_gene p) k
      = (((p.core_entrez_ids.zip p.core_enriched_genes).filter
            (fun q => q.1 = k)).getLast?).map (fun q => q.2)
  ∧ (p.core_entrez_ids.zip p.core_enriched_genes).length
      = min p.core_entrez_ids.length p.core_enriched_genes.length :=
  ⟨dictGet_dictOfList _ _, List.length_zip _ _⟩

/-- C1 failing pathway row: every numeric column holds the decimal string
the external tool wrote; the f-string conversions truncate characters. -/
def c1row : KeggRow :=
  { ID := "hsa04110"
    Description := "Cell cycle"
    pvalue := "0.001234"
    padjust := "0.004567"
    enrichmentScore := "-0.6012345"
    NES := "-2.1012345"
    setSize := "124"
    coreEnrichedGenes := "TP53 EGFR"
    coreEntrezIDs := "7157/1956" }

/-- C1 failing contrast row. -/
def c1crow : ContrastRow :=
  { gene := "TP53"
    log2FoldChange := "-1.2345"
    pvalue := "0.001234"
    padj := "0.04567" }

/-- C1: csv.DictReader yields strings and the format conversions
`{row[c]:.3}`, `{row[c]:.4}`, `{row[c]:.6}` applied to strings truncate to
3, 4, 6 characters instead of rounding to significant digits: the p-value
0.001234 is rendered "0.0" (3 significant digits would be "0.00123"), the
enrichment score -0.6012345 is rendered "-0.601" (6 significant digits
would be "-0.601234", cut mid-mantissa), and the fold-change -1.2345 is
rendered "-1.2". -/
theorem c1_formatting_truncates_not_rounds :
    (parseKeggRow c1row).p_value = "0.0"
  ∧ (parseKeggRow c1row).enrichment_score = "-0.601"
  ∧ (parseKeggRow c1row).normalized_enrichment_score = "-2.101"
  ∧ (parse_contrast_row c1crow).2 = ["-1.2", "0.0", "0.0"]
  ∧ "0.0" ≠ "0.00123" := by
  refine ⟨by decide, by decide, by decide, by decide, by decide⟩

/-- C8 counterexample row: two gene symbols but a single entrez id. -/
def c8row : KeggRow :=
  { ID := "hsa00001"
    Description := "Example"
    pvalue := "0.001"
    padjust := "0.002"
    enrichmentScore := "0.5"
    NES := "1.5"
    setSize := "2"
    coreEnrichedGenes := "TP53 EGFR"
    coreEntrezIDs := "7157" }

/-- C8 as stated is false: parse_kegg_pathway_table splits the two columns
independently and never checks the token counts, so a row with two
space-separated gene symbols and one slash-separated entrez id parses to
lists of lengths 2 and 1. -/
theorem c8_counterexample :
    ¬ ((parseKeggRow c8row).core_enriched_genes.length
        = (parseKeggRow c8row).core_entrez_ids.length) := by
  decide

/-- C8 amended: for every row whose space-separated gene-symbol token count
equals its slash-separated entrez-id token count, the parsed lists have
equal length, and each list preserves the token order of its column, so
index i of the two lists refers to the i-th listed gene of the row. -/
theorem c8_equal_length_of_token_counts (row : KeggRow)
    (h : (pySplit " " row.coreEnrichedGenes).length
          = (pySplit "/" row.coreEntrezIDs).length) :
    (parseKeggRow row).core_enriched_genes.length
      = (parseKeggRow row).core_entrez_ids.length
  ∧ (∀ i : Nat,
      (parseKeggRow row).core_enriched_genes.get? i
          = (pySplit " " row.coreEnrichedGenes).get? i
      ∧ (parseKeggRow row).core_entrez_ids.get? i
          = (pySplit "/" row.coreEntrezIDs).get? i) :=
  ⟨h, fun _ => ⟨rfl, rfl⟩⟩

/-- C8 witness row: two genes and two ids. -/
def c8wrow : KeggRow :=
  { ID := "hsa00002"
    Description := "Example two"
    pvalue := "0.001"
    padjust := "0.002"
    enrichmentScore := "0.5"
    NES := "1.5"
    setSize := "2"
    coreEnrichedGenes := "TP53 EGFR"
    coreEntrezIDs := "7157/1956" }

/-- C8 witness: a well-formed row with two genes and two ids. -/
theorem c8_amended_witness :
    (pySplit " " c8wrow.coreEnrichedGenes).length
      = (pySplit "/" c8wrow.coreEntrezIDs).length
  ∧ (parseKeggRow c8wrow).core_enriched_genes.length
      = (parseKeggRow c8wrow).core_entrez_ids.length :=
  ⟨by decide, (c8_equal_length_of_token_counts c8wrow (by decide)).1⟩

/-- The Species enum of wf/__init__.py. -/
inductive Species
  | HUMAN
  | MOUSE
  | YEAST
  | RAT
deriving Repr, DecidableEq

/-- species_2_kegg mapping. -/
def species_2_kegg : Species → String
  | Species.HUMAN => "hsa"
  | Species.MOUSE => "mmu"
  | Species.YEAST => "sce"
  | Species.RAT => "rno"

/-- PATHVIEW_IMAGE_WIDTH constant (target display width in pixels). -/
def PATHVIEW_IMAGE_WIDTH : ℚ := 800

/-- The graphics child of a diagram entry: its type and name attributes and
its four numeric attributes (already converted by float(...)). -/
structure Graphics where
  type : Option String
  name : Option String
  x : ℚ
  y : ℚ
  width : ℚ
  height : ℚ
deriving Repr, DecidableEq

/-- The dict returned by make_gene_annotation_view_rect. -/
structure ViewRect where
  x : ℚ
  y : ℚ
  width : ℚ
  height : ℚ
deriving Repr, DecidableEq

/-- make_gene_annotation_view_rect: returns None (falsy) for graphics of
type "line", otherwise scales the four attributes uniformly by
PATHVIEW_IMAGE_WIDTH / image_width and shifts x, y from center to
top-left. -/
def make_gene_annotation_view_rect (image_width : ℚ) (graphics : Graphics) :
    Option ViewRect :=
  let scale := PATHVIEW_IMAGE_WIDTH / image_width
  if graphics.type = some "line" then none
  else
    let x := graphics.x * scale
    let y := graphics.y * scale
    let width := graphics.width * scale
    let height := graphics.height * scale
    some { x := x - width / 2, y := y - height / 2, width := width, height := height }

/-- An XML entry element of the pathview sidecar file: its type and name
attributes and its graphics child, each absent when missing. -/
structure Entry where
  type : Option String
  name : Option String
  graphics : Option Graphics
deriving Repr, DecidableEq

/-- One element of the gene_groups list built by parse_gene_groups. -/
structure GeneGroup where
  view : ViewRect
  core : Bool
  genes : List (String × Bool)
deriving Repr, DecidableEq

/-- First loop over raw_names.split(" ") in parse_gene_groups: tokens that
carry the species prefix and whose entrez id is known are marked core=True
in the entry's gene dict. -/
def core_gene_pass (species : Species) (lookup : List (String × String))
    (raw_names : String) : List (String × Bool) :=
  (pySplit " " raw_names).foldl
    (fun genes nm =>
      if pyStartsWith (species_2_kegg species ++ ":") nm then
        let entrez_id := pyRemoveOneAtStart (species_2_kegg species ++ ":") nm
        match dictGet lookup entrez_id with
        | some gene => dictInsert genes gene true
        | none => genes
      else genes)
    []

/-- Second loop of parse_gene_groups over the graphics name attribute: drop
one trailing "...", split on ", ", and add symbols that are contrast genes
and not already present, marked core=False. -/
def graphics_gene_pass (contrast_genes : List String)
    (genes : List (String × Bool)) (graphics_raw_genes : Option String) :
    List (String × Bool) :=
  match graphics_raw_genes with
  | none => genes
  | some raw =>
    (pySplit ", " (pyRemoveOneAtEnd "..." raw)).foldl
      (fun gs new_gene =>
        if new_gene ∈ contrast_genes ∧ dictHasKey gs new_gene = false then
          dictInsert gs new_gene false
        else gs)
      genes

/-- Body of the entry loop of parse_gene_groups: what one XML entry
contributes to gene_groups (none when the loop continues without
appending). -/
def process_entry (species : Species) (lookup : List (String × String))
    (contrast_genes : List String) (image_width : ℚ) (entry : Entry) :
    Option GeneGroup :=
  if entry.type ≠ some "gene" then none
  else
    match entry.name with
    | none => none
    | some raw_names =>
      match entry.graphics with
      | none => none
      | some graphics =>
        let genes := graphics_gene_pass contrast_genes
          (core_gene_pass species lookup raw_names) graphics.name
        if genes.length = 0 then none
        else
          match make_gene_annotation_view_rect image_width graphics with
          | none => none
          | some view =>
            some { view := view, core := genes.any (fun p => p.2), genes := genes }

/-- parse_gene_groups over the list of entry elements of the XML document,
with the image width already read from the png. -/
def parse_gene_groups (pathway : Pathway) (contrast_genes : List String)
    (image_width : ℚ) (species : Species) (entries : List Entry) :
    List GeneGroup :=
  entries.filterMap
    (process_entry species (entrez_id_to_gene pathway) contrast_genes image_width)

/-- C2: for every graphics element whose type attribute is not "line", the
emitted rectangle is exactly the uniform rescale by 800 / image_width of
the four native attributes followed by the center-to-top-left shift by half
of the already-scaled width and height. -/
theorem c2_rescale (image_width : ℚ) (g : Graphics) (h : g.type ≠ some "line") :
    make_gene_annotation_view_rect image_width g =
      some { x := g.x * (800 / image_width) - (g.width * (800 / image_width)) / 2
             y := g.y * (800 / image_width) - (g.height * (800 / image_width)) / 2
             width := g.width * (800 / image_width)
             height := g.height * (800 / image_width) } := by
  simp [make_gene_annotation_view_rect, h, PATHVIEW_IMAGE_WIDTH]

/-- C2 witness: a 1000 pixel wide image scales by 4/5; the box centered at
(500, 300) of size 100 by 50 becomes the top-left box (360, 220, 80, 40). -/
theorem c2_rescale_witness :
    make_gene_annotation_view_rect 1000
      { type := some "rectangle", name := some "TP53"
        x := 500, y := 300, width := 100, height := 50 }
      = some { x := 360, y := 220, width := 80, height := 40 } :=
  (c2_rescale 1000 _ (by decide)).trans
    (by norm_num [Option.some.injEq, ViewRect.mk.injEq])

/-- C3 scenario pathway: its lookup maps entrez id 111 to gene A and knows
no other id. -/
def c3pathway : Pathway :=
  { kegg_id := "hsa00000"
    name := "Scenario"
    p_value := "0.0"
    p_adjusted_value := "0.0"
    enrichment_score := "0.5"
    normalized_enrichment_score := "1.5"
    gene_set_size := "1"
    leading_edge_size := "1"
    core_enriched_genes := ["A"]
    core_entrez_ids := ["111"] }

/-- C3 scenario entry: name attribute "hsa:111 hsa:222", graphics name
attribute "A, B, C...". -/
def c3entry : Entry :=
  { type := some "gene"
    name := some "hsa:111 hsa:222"
    graphics := some { type := some "rectangle", name := some "A, B, C..."
                       x := 100, y := 200, width := 46, height := 17 } }

/-- C3: on the scenario entry with contrast genes {A, B}, parse_gene_groups
resolves the gene set to exactly [(A, true), (B, false)] in that insertion
order: hsa:111 resolves through the lookup to A marked core, hsa:222 is
unknown and dropped, the graphics symbols add B (in the contrast set, not
yet present) marked non-core, keep A at its existing true mark, and drop
the ellipsis-truncated token C (also not in the contrast set). -/
theorem c3_scenario_gene_set :
    (parse_gene_groups c3pathway ["A", "B"] 800 Species.HUMAN [c3entry]).map
        (fun grp => grp.genes)
      = [[("A", true), ("B", false)]] := by
  decide

theorem process_entry_some_nonempty (species : Species)
    (lookup : List (String × String)) (contrast_genes : List String)
    (image_width : ℚ) (entry : Entry) (grp : GeneGroup)
    (h : process_entry species lookup contrast_genes image_width entry = some grp) :
    grp.genes ≠ [] := by
  obtain ⟨t, n, gr⟩ := entry
  unfold process_entry at h
  split at h
  · exact Option.noConfusion h
  · cases n with
    | none => exact Option.noConfusion h
    | some raw_names =>
      cases gr with
      | none => exact Option.noConfusion h
      | some graphics =>
        dsimp only at h
        by_cases hlen : (graphics_gene_pass contrast_genes
            (core_gene_pass species lookup raw_names) graphics.name).length = 0
        · rw [if_pos hlen] at h
          exact Option.noConfusion h
        · rw [if_neg hlen] at h
          cases hr : make_gene_annotation_view_rect image_width graphics with
          | none =>
            rw [hr] at h
            exact Option.noConfusion h
          | some view =>
            rw [hr] at h
            injection h with h
            subst h
            intro hnil
            exact hlen (by simpa using congrArg List.length hnil)

/-- C4: every group emitted by parse_gene_groups has a nonempty gene list:
an entry whose resolved gene set is empty after both passes is dropped. -/
theorem c4_no_empty_group (pathway : Pathway) (contrast_genes : List String)
    (image_width : ℚ) (species : Species) (entries : List Entry)
    (grp : GeneGroup)
    (h : grp ∈ parse_gene_groups pathway contrast_genes image_width species entries) :
    grp.genes ≠ [] := by
  unfold parse_gene_groups at h
  rcases List.mem_filterMap.mp h with ⟨e, _, he⟩
  exact process_entry_some_nonempty _ _ _ _ _ _ he

/-- C4 witness group: the group the scenario entry emits, with the view
coordinates written as the unevaluated scale expressions the code
computes. -/
def c4grp : GeneGroup :=
  { view := { x := 100 * ((800 : ℚ) / 800) - 46 * ((800 : ℚ) / 800) / 2
              y := 200 * ((800 : ℚ) / 800) - 17 * ((800 : ℚ) / 800) / 2
              width := 46 * ((800 : ℚ) / 800)
              height := 17 * ((800 : ℚ) / 800) }
    core := true
    genes := [("A", true), ("B", false)] }

/-- C4 witness: a concrete emitted group, which is indeed nonempty. -/
theorem c4_no_empty_group_witness :
    c4grp ∈ parse_gene_groups c3pathway ["A", "B"] 800 Species.HUMAN [c3entry]
  ∧ c4grp.genes ≠ [] :=
  ⟨List.Mem.head _,
   c4_no_empty_group c3pathway ["A", "B"] 800 Species.HUMAN [c3entry] c4grp
     (List.Mem.head _)⟩

theorem process_entry_line_none (species : Species)
    (lookup : List (String × String)) (contrast_genes : List String)
    (image_width : ℚ) (entry : Entry) (g : Graphics)
    (hg : entry.graphics = some g) (hline : g.type = some "line") :
    process_entry species lookup contrast_genes image_width entry = none := by
  obtain ⟨t, n, gr⟩ := entry
  simp only [] at hg
  subst hg
  have hrect : make_gene_annotation_view_rect image_width g = none := by
    simp [make_gene_annotation_view_rect, hline]
  unfold process_entry
  cases n with
  | none => simp
  | some raw_names => simp [hrect]

/-- C5: an entry whose graphics type attribute is "line" contributes no
group: parse_gene_groups on a list starting with such an entry returns the
groups of the remaining entries, whatever the gene set of the entry would
have resolved to. -/
theorem c5_line_entry_skipped (pathway : Pathway) (contrast_genes : List String)
    (image_width : ℚ) (species : Species) (entries : List Entry)
    (entry : Entry) (g : Graphics)
    (hg : entry.graphics = some g) (hline : g.type = some "line") :
    parse_gene_groups pathway contrast_genes image_width species (entry :: entries)
      = parse_gene_groups pathway contrast_genes image_width species entries := by
  unfold parse_gene_groups
  rw [List.filterMap_cons,
      process_entry_line_none species (entrez_id_to_gene pathway) contrast_genes
        image_width entry g hg hline]

/-- C5 witness entry: a line-typed graphics child on a gene entry whose
name would resolve to gene A. -/
def c5entry : Entry :=
  { type := some "gene"
    name := some "hsa:111"
    graphics := some { type := some "line", name := some "A..."
                       x := 100, y := 200, width := 46, height := 17 } }

/-- C5 witness: the line entry is skipped even though its gene set would
have resolved to {A}. -/
theorem c5_line_entry_skipped_witness :
    c5entry.graphics
      = some { type := some "line", name := some "A..."
               x := 100, y := 200, width := 46, height := 17 }
  ∧ parse_gene_groups c3pathway ["A", "B"] 800 Species.HUMAN [c5entry, c3entry]
      = parse_gene_groups c3pathway ["A", "B"] 800 Species.HUMAN [c3entry] :=
  ⟨rfl,
   c5_line_entry_skipped c3pathway ["A", "B"] 800 Species.HUMAN [c3entry] c5entry
     _ rfl rfl⟩

/-- Fuelled worker for re_findall: find the leftmost start token, then the
nearest end token after it (non-greedy body), emit the body and continue
after the end token, as re.findall does with pattern START(.*?)END under
DOTALL. -/
def reFindAllAux (startTok endTok : List Char) : Nat → List Char → List (List Char)
  | 0, _ => []
  | fuel + 1, s =>
    match splitFirst startTok s with
    | none => []
    | some (_, rest) =>
      match splitFirst endTok rest with
      | none => []
      | some (body, rest2) => body :: reFindAllAux startTok endTok fuel rest2

/-- re.findall of the compiled pattern startTok(.*?)endTok with re.DOTALL:
the list of captured bodies of the leftmost non-overlapping matches. -/
def re_findall (startTok endTok s : String) : List String :=
  (reFindAllAux startTok.data endTok.data (s.data.length + 1) s.data).map
    (fun l => ⟨l⟩)

/-- The start sentinel of make_message_pattern. -/
def make_message_start (flag : String) : String :=
  "__LATCH_" ++ flag ++ "_START__"

/-- The end sentinel of make_message_pattern. -/
def make_message_end (flag : String) : String :=
  "__LATCH_" ++ flag ++ "_END__"

/-- One call of message(message_type, {"title": ..., "body": ...}). -/
structure LatchMessage where
  typ : String
  title : String
  body : String
deriving Repr, DecidableEq

/-- emit_messages: every captured body is forwarded to the messaging
channel tagged with the message type and a fixed title. -/
def emit_messages (flag : String) (message_type : String) (stdout_logs : String) :
    List LatchMessage :=
  (re_findall (make_message_start flag) (make_message_end flag) stdout_logs).map
    (fun item =>
      { typ := message_type
        title := "Pathway enrichment analysis " ++ message_type
        body := item })

/-- The observable behaviour of run_rscript after the subprocess returned:
the messages forwarded to the channel, and either normal completion or the
RuntimeError it raises. -/
structure RScriptRun where
  messages : List LatchMessage
  outcome : Except String Unit

/-- run_rscript given the exit code and captured stdout of the external
script: emit error then warning messages, then raise iff the exit code is
non-zero. -/
def run_rscript (returncode : Int) (stdout : String) : RScriptRun :=
  { messages := emit_messages "ERROR" "error" stdout
      ++ emit_messages "WARNING" "warning" stdout
    outcome :=
      if returncode ≠ 0 then
        Except.error ("R script failed with exit code " ++ "'"
          ++ toString returncode ++ "'")
      else Except.ok () }

theorem splitFirst_sizes (pat : List Char) :
    ∀ (s pre post : List Char), splitFirst pat s = some (pre, post) →
      s.length = pre.length + pat.length + post.length := by
  intro s
  induction s with
  | nil => intro pre post h; exact Option.noConfusion h
  | cons c s ih =>
    intro pre post h
    rw [splitFirst] at h
    by_cases hp : pat.isPrefixOf (c :: s) = true
    · rw [if_pos hp] at h
      injection h with h
      injection h with h1 h2
      subst h1
      subst h2
      have hlen : pat.length ≤ s.length + 1 := by
        simpa using (List.isPrefixOf_iff_prefix.mp hp).length_le
      simp [List.length_drop]
      omega
    · rw [if_neg hp] at h
      cases hs : splitFirst pat s with
      | none => rw [hs] at h; exact Option.noConfusion h
      | some pr =>
        rw [hs] at h
        obtain ⟨pre0, post0⟩ := pr
        simp only [Option.map_some'] at h
        injection h with h
        injection h with h1 h2
        subst h1
        subst h2
        have := ih pre0 post0 hs
        simp only [List.length_cons]
        omega

theorem splitFirst_post_lt (pat s pre post : List Char)
    (h : splitFirst pat s = some (pre, post)) (hpat : pat ≠ []) :
    post.length < s.length := by
  have hs := splitFirst_sizes pat s pre post h
  have : 0 < pat.length := List.length_pos.mpr hpat
  omega

theorem reFindAllAux_fuel (S E : List Char) (hS : S ≠ []) (hE : E ≠ []) :
    ∀ (n : Nat) (s : List Char) (f g : Nat), s.length < f → s.length < g →
      s.length ≤ n → reFindAllAux S E f s = reFindAllAux S E g s := by
  intro n
  induction n with
  | zero =>
    intro s f g hf hg hn
    obtain ⟨f0, rfl⟩ : ∃ f0, f = f0 + 1 := ⟨f - 1, by omega⟩
    obtain ⟨g0, rfl⟩ : ∃ g0, g = g0 + 1 := ⟨g - 1, by omega⟩
    have hs : s = [] := List.length_eq_zero.mp (by omega)
    subst hs
    rfl
  | succ n ih =>
    intro s f g hf hg hn
    obtain ⟨f0, rfl⟩ : ∃ f0, f = f0 + 1 := ⟨f - 1, by omega⟩
    obtain ⟨g0, rfl⟩ : ∃ g0, g = g0 + 1 := ⟨g - 1, by omega⟩
    simp only [reFindAllAux]
    cases h1 : splitFirst S s with
    | none => rfl
    | some pr =>
      obtain ⟨pre, rest⟩ := pr
      dsimp only
      cases h2 : splitFirst E rest with
      | none => rfl
      | some br =>
        obtain ⟨body, rest2⟩ := br
        dsimp only
        have hr1 : rest.length < s.length := splitFirst_post_lt S s pre rest h1 hS
        have hr2 : rest2.length < rest.length := splitFirst_post_lt E rest body rest2 h2 hE
        have := ih rest2 f0 g0 (by omega) (by omega) (by omega)
        rw [this]

theorem splitFirst_at_first (pat : List Char) (hpat : pat.head? = some '\x5f') :
    ∀ (a r : List Char), ('\x5f' ∉ a) →
      splitFirst pat (a ++ (pat ++ r)) = some (a, r) := by
  intro a
  induction a with
  | nil =>
    intro r _
    cases pat with
    | nil => exact Option.noConfusion hpat
    | cons p pt =>
      have hpre : (p :: pt).isPrefixOf ((p :: pt) ++ r) = true :=
        List.isPrefixOf_iff_prefix.mpr ⟨r, rfl⟩
      simp only [List.nil_append]
      rw [show (p :: pt) ++ r = p :: (pt ++ r) from rfl, splitFirst]
      rw [show (p :: (pt ++ r)) = (p :: pt) ++ r from rfl, if_pos hpre]
      rw [List.drop_left]
  | cons x a ih =>
    intro r hx
    have hxne : x ≠ '\x5f' := fun heq => hx (by simp [heq])
    have hna : '\x5f' ∉ a := fun hmem => hx (List.mem_cons_of_mem x hmem)
    have hnp : pat.isPrefixOf (x :: (a ++ (pat ++ r))) = false := by
      cases pat with
      | nil => exact Option.noConfusion hpat
      | cons p pt =>
        have hp : p = '\x5f' := by
          simpa using hpat
        subst hp
        simp [List.isPrefixOf]
        intro hcontra
        exact absurd hcontra.symm hxne
    rw [show (x :: a) ++ (pat ++ r) = x :: (a ++ (pat ++ r)) from rfl, splitFirst]
    rw [if_neg (by simp [hnp])]
    rw [ih r hna]
    rfl

theorem message_start_head (flag : String) :
    (make_message_start flag).data.head? = some '\x5f' := by
  have h : (make_message_start flag).data
      = "__LATCH_".data ++ flag.data ++ "_START__".data := by
    simp [make_message_start]
  rw [h]
  rfl

theorem message_end_head (flag : String) :
    (make_message_end flag).data.head? = some '\x5f' := by
  have h : (make_message_end flag).data
      = "__LATCH_".data ++ flag.data ++ "_END__".data := by
    simp [make_message_end]
  rw [h]
  rfl

theorem re_findall_step (S E a b c : String)
    (hS : S.data.head? = some '\x5f') (hE : E.data.head? = some '\x5f')
    (ha : '\x5f' ∉ a.data) (hb : '\x5f' ∉ b.data) :
    re_findall S E (a ++ S ++ b ++ E ++ c) = b :: re_findall S E c := by
  have hSne : S.data ≠ [] := fun h => by rw [h] at hS; exact Option.noConfusion hS
  have hEne : E.data ≠ [] := fun h => by rw [h] at hE; exact Option.noConfusion hE
  have hSlen : 0 < S.data.length := List.length_pos.mpr hSne
  have hElen : 0 < E.data.length := List.length_pos.mpr hEne
  unfold re_findall
  have hdata : (a ++ S ++ b ++ E ++ c).data
      = a.data ++ (S.data ++ (b.data ++ (E.data ++ c.data))) := by
    simp [List.append_assoc]
  rw [hdata]
  simp only [reFindAllAux]
  rw [splitFirst_at_first S.data hS a.data (b.data ++ (E.data ++ c.data)) ha]
  dsimp only
  rw [splitFirst_at_first E.data hE b.data c.data hb]
  dsimp only
  have hfuel : reFindAllAux S.data E.data
        (a.data ++ (S.data ++ (b.data ++ (E.data ++ c.data)))).length c.data
      = reFindAllAux S.data E.data (c.data.length + 1) c.data := by
    apply reFindAllAux_fuel S.data E.data hSne hEne c.data.length c.data
    · simp only [List.length_append]
      omega
    · omega
    · omega
  rw [hfuel]
  rfl

theorem emit_messages_step (flag message_type a b c : String)
    (ha : '\x5f' ∉ a.data) (hb : '\x5f' ∉ b.data) :
    emit_messages flag message_type
        (a ++ make_message_start flag ++ b ++ make_message_end flag ++ c)
      = { typ := message_type
          title := "Pathway enrichment analysis " ++ message_type
          body := b }
        :: emit_messages flag message_type c := by
  unfold emit_messages
  rw [re_findall_step (make_message_start flag) (make_message_end flag) a b c
      (message_start_head flag) (message_end_head flag) ha hb]
  rfl

/-- C6: run_rscript raises the fatal RuntimeError carrying the exit code
exactly when the exit code is non-zero (first two clauses, for every
captured stdout, so forwarded messages never gate the outcome); the
forwarded messages do not depend on the exit code (third clause); and each
sentinel-delimited body in stdout is extracted by the leftmost non-greedy
match and forwarded tagged with its kind (fourth clause, for any prefix
and body free of the sentinel lead character). -/
theorem c6_exit_gating_and_message_forwarding (returncode : Int) (stdout : String)
    (flag message_type a b c : String)
    (ha : '\x5f' ∉ a.data) (hb : '\x5f' ∉ b.data) :
    ((run_rscript returncode stdout).outcome
        = Except.error ("R script failed with exit code " ++ "'"
            ++ toString returncode ++ "'")
      ↔ returncode ≠ 0)
  ∧ ((run_rscript returncode stdout).outcome = Except.ok () ↔ returncode = 0)
  ∧ (run_rscript returncode stdout).messages = (run_rscript 0 stdout).messages
  ∧ emit_messages flag message_type
        (a ++ make_message_start flag ++ b ++ make_message_end flag ++ c)
      = { typ := message_type
          title := "Pathway enrichment analysis " ++ message_type
          body := b }
        :: emit_messages flag message_type c := by
  refine ⟨?_, ?_, rfl, emit_messages_step flag message_type a b c ha hb⟩
  · unfold run_rscript
    by_cases hrc : returncode = 0
    · subst hrc
      simp
    · simp [hrc]
  · unfold run_rscript
    by_cases hrc : returncode = 0
    · subst hrc
      simp
    · simp [hrc]

/-- C6 witness: exit code 2 raises the error naming "2", and a concrete
stdout with one error sentinel block forwards exactly its body. -/
theorem c6_witness :
    ('\x5f' ∉ "captured log line ".data)
  ∧ ('\x5f' ∉ "bad input".data)
  ∧ ((run_rscript 2 "ignored").outcome
      = Except.error ("R script failed with exit code " ++ "'"
          ++ toString (2 : Int) ++ "'")
    ↔ (2 : Int) ≠ 0)
  ∧ emit_messages "ERROR" "error"
        ("captured log line " ++ make_message_start "ERROR" ++ "bad input"
          ++ make_message_end "ERROR" ++ "tail")
      = { typ := "error"
          title := "Pathway enrichment analysis " ++ "error"
          body := "bad input" }
        :: emit_messages "ERROR" "error" "tail" :=
  ⟨by decide, by decide,
   (c6_exit_gating_and_message_forwarding 2 "ignored" "ERROR" "error"
      "captured log line " "bad input" "tail" (by decide) (by decide)).1,
   (c6_exit_gating_and_message_forwarding 2 "ignored" "ERROR" "error"
      "captured log line " "bad input" "tail" (by decide) (by decide)).2.2.2⟩

/-- The active append target of the key-block genesets parser (the Python
pair of variables current and split; split is determined by the target). -/
inductive GenesetsTarget
  | noTarget
  | pids
  | eids
  | names
deriving Repr, DecidableEq

/-- State of the line loop of pathway_to_genesets_mapping. -/
structure GenesetsState where
  pathway_ids : List String
  entrez_ids : List (List String)
  gene_names : List (List String)
  current : GenesetsTarget
deriving Repr, DecidableEq

/-- Initial state: empty accumulators, no active target. -/
def genesets_init : GenesetsState :=
  { pathway_ids := []
    entrez_ids := []
    gene_names := []
    current := GenesetsTarget.noTarget }

/-- Does the line switch the active target. -/
def isGenesetsHeader (line : String) : Bool :=
  pyStartsWith "PATHWAYIDS" line || pyStartsWith "ENTREZIDS" line
    || pyStartsWith "NAMES" line

/-- One iteration of the line loop of pathway_to_genesets_mapping: header
lines switch the target, other lines append to the active target, stripped
(PATHWAYIDS) or stripped and space-split (ENTREZIDS, NAMES), and are
dropped while no target is active. -/
def genesets_step (st : GenesetsState) (line : String) : GenesetsState :=
  if pyStartsWith "PATHWAYIDS" line then { st with current := GenesetsTarget.pids }
  else if pyStartsWith "ENTREZIDS" line then { st with current := GenesetsTarget.eids }
  else if pyStartsWith "NAMES" line then { st with current := GenesetsTarget.names }
  else
    match st.current with
    | GenesetsTarget.noTarget => st
    | GenesetsTarget.pids =>
      { st with pathway_ids := st.pathway_ids ++ [pyStrip line] }
    | GenesetsTarget.eids =>
      { st with entrez_ids := st.entrez_ids ++ [pySplit " " (pyStrip line)] }
    | GenesetsTarget.names =>
      { st with gene_names := st.gene_names ++ [pySplit " " (pyStrip line)] }

/-- pathway_to_genesets_mapping over the lines of the genesets file:
dict(zip(pathway_ids, zip(entrez_ids, gene_names))) filtered down to the
relevant pathway ids. -/
def pathway_to_genesets_mapping (relevant_pathway_ids : List String)
    (lines : List String) : List (String × (List String × List String)) :=
  let st := lines.foldl genesets_step genesets_init
  let mapping := dictOfList (st.pathway_ids.zip (st.entrez_ids.zip st.gene_names))
  mapping.filter (fun kv => kv.1 ∈ relevant_pathway_ids)

theorem genesets_foldl_nonheader (body : List String)
    (h : ∀ l ∈ body, isGenesetsHeader l = false) :
    ∀ st : GenesetsState,
      body.foldl genesets_step st
        = match st.current with
          | GenesetsTarget.noTarget => st
          | GenesetsTarget.pids =>
            { st with pathway_ids := st.pathway_ids ++ body.map pyStrip }
          | GenesetsTarget.eids =>
            { st with entrez_ids := st.entrez_ids
                ++ body.map (fun l => pySplit " " (pyStrip l)) }
          | GenesetsTarget.names =>
            { st with gene_names := st.gene_names
                ++ body.map (fun l => pySplit " " (pyStrip l)) } := by
  induction body with
  | nil =>
    intro st
    obtain ⟨ps, es, ns, cur⟩ := st
    cases cur <;> simp
  | cons l body ih =>
    intro st
    have hl : isGenesetsHeader l = false := h l (List.mem_cons_self l body)
    have hb : ∀ x ∈ body, isGenesetsHeader x = false :=
      fun x hx => h x (List.mem_cons_of_mem l hx)
    have hl1 : pyStartsWith "PATHWAYIDS" l = false := by
      simp [isGenesetsHeader] at hl
      exact hl.1.1
    have hl2 : pyStartsWith "ENTREZIDS" l = false := by
      simp [isGenesetsHeader] at hl
      exact hl.1.2
    have hl3 : pyStartsWith "NAMES" l = false := by
      simp [isGenesetsHeader] at hl
      exact hl.2
    obtain ⟨ps, es, ns, cur⟩ := st
    rw [List.foldl_cons]
    cases cur with
    | noTarget =>
      have hstep : genesets_step ⟨ps, es, ns, GenesetsTarget.noTarget⟩ l
          = ⟨ps, es, ns, GenesetsTarget.noTarget⟩ := by
        simp [genesets_step, hl1, hl2, hl3]
      rw [hstep, ih hb ⟨ps, es, ns, GenesetsTarget.noTarget⟩]
    | pids =>
      have hstep : genesets_step ⟨ps, es, ns, GenesetsTarget.pids⟩ l
          = ⟨ps ++ [pyStrip l], es, ns, GenesetsTarget.pids⟩ := by
        simp [genesets_step, hl1, hl2, hl3]
      rw [hstep, ih hb ⟨ps ++ [pyStrip l], es, ns, GenesetsTarget.pids⟩]
      simp [List.append_assoc]
    | eids =>
      have hstep : genesets_step ⟨ps, es, ns, GenesetsTarget.eids⟩ l
          = ⟨ps, es ++ [pySplit " " (pyStrip l)], ns, GenesetsTarget.eids⟩ := by
        simp [genesets_step, hl1, hl2, hl3]
      rw [hstep, ih hb ⟨ps, es ++ [pySplit " " (pyStrip l)], ns, GenesetsTarget.eids⟩]
      simp [List.append_assoc]
    | names =>
      have hstep : genesets_step ⟨ps, es, ns, GenesetsTarget.names⟩ l
          = ⟨ps, es, ns ++ [pySplit " " (pyStrip l)], GenesetsTarget.names⟩ := by
        simp [genesets_step, hl1, hl2, hl3]
      rw [hstep, ih hb ⟨ps, es, ns ++ [pySplit " " (pyStrip l)], GenesetsTarget.names⟩]
      simp [List.append_assoc]

theorem genesets_step_header_pids (st : GenesetsState) :
    genesets_step st "PATHWAYIDS" = { st with current := GenesetsTarget.pids } := by
  have h1 : pyStartsWith "PATHWAYIDS" "PATHWAYIDS" = true := by decide
  simp [genesets_step, h1]

theorem genesets_step_header_eids (st : GenesetsState) :
    genesets_step st "ENTREZIDS" = { st with current := GenesetsTarget.eids } := by
  have h1 : pyStartsWith "PATHWAYIDS" "ENTREZIDS" = false := by decide
  have h2 : pyStartsWith "ENTREZIDS" "ENTREZIDS" = true := by decide
  simp [genesets_step, h1, h2]

theorem genesets_step_header_names (st : GenesetsState) :
    genesets_step st "NAMES" = { st with current := GenesetsTarget.names } := by
  have h1 : pyStartsWith "PATHWAYIDS" "NAMES" = false := by decide
  have h2 : pyStartsWith "ENTREZIDS" "NAMES" = false := by decide
  have h3 : pyStartsWith "NAMES" "NAMES" = true := by decide
  simp [genesets_step, h1, h2, h3]

/-- C9: lines before the first header leave the fold where it started
(first clause); a PATHWAYIDS section appends its lines stripped as
scalars while ENTREZIDS and NAMES sections append their lines stripped
and space-split as token lists (middle clauses, for arbitrary header-free
section bodies); and every entry of the returned mapping has its key in
the relevant id set (last clause). -/
theorem c9_key_block_parsing
    (relevant junk rest body1 body2 body3 lines : List String)
    (entry : String × (List String × List String))
    (hjunk : ∀ l ∈ junk, isGenesetsHeader l = false)
    (h1 : ∀ l ∈ body1, isGenesetsHeader l = false)
    (h2 : ∀ l ∈ body2, isGenesetsHeader l = false)
    (h3 : ∀ l ∈ body3, isGenesetsHeader l = false)
    (hmem : entry ∈ pathway_to_genesets_mapping relevant lines) :
    ((junk ++ rest).foldl genesets_step genesets_init
        = rest.foldl genesets_step genesets_init)
  ∧ (["PATHWAYIDS"] ++ body1 ++ ["ENTREZIDS"] ++ body2 ++ ["NAMES"] ++ body3).foldl
        genesets_step genesets_init
      = { pathway_ids := body1.map pyStrip
          entrez_ids := body2.map (fun l => pySplit " " (pyStrip l))
          gene_names := body3.map (fun l => pySplit " " (pyStrip l))
          current := GenesetsTarget.names }
  ∧ entry.1 ∈ relevant := by
  refine ⟨?_, ?_, ?_⟩
  · have ha : junk.foldl genesets_step genesets_init = genesets_init :=
      genesets_foldl_nonheader junk hjunk genesets_init
    rw [List.foldl_append, ha]
  · have s0 : (["PATHWAYIDS"] : List String).foldl genesets_step genesets_init
        = ⟨[], [], [], GenesetsTarget.pids⟩ := by
      simp only [List.foldl_cons, List.foldl_nil]
      rw [genesets_step_header_pids]
      rfl
    have s1 : body1.foldl genesets_step ⟨[], [], [], GenesetsTarget.pids⟩
        = ⟨body1.map pyStrip, [], [], GenesetsTarget.pids⟩ := by
      rw [genesets_foldl_nonheader body1 h1 ⟨[], [], [], GenesetsTarget.pids⟩]
      rfl
    have s2 : (["ENTREZIDS"] : List String).foldl genesets_step
          ⟨body1.map pyStrip, [], [], GenesetsTarget.pids⟩
        = ⟨body1.map pyStrip, [], [], GenesetsTarget.eids⟩ := by
      simp only [List.foldl_cons, List.foldl_nil]
      rw [genesets_step_header_eids]
    have s3 : body2.foldl genesets_step
          ⟨body1.map pyStrip, [], [], GenesetsTarget.eids⟩
        = ⟨body1.map pyStrip, body2.map (fun l => pySplit " " (pyStrip l)), [],
           GenesetsTarget.eids⟩ := by
      rw [genesets_foldl_nonheader body2 h2
        ⟨body1.map pyStrip, [], [], GenesetsTarget.eids⟩]
      rfl
    have s4 : (["NAMES"] : List String).foldl genesets_step
          ⟨body1.map pyStrip, body2.map (fun l => pySplit " " (pyStrip l)), [],
           GenesetsTarget.eids⟩
        = ⟨body1.map pyStrip, body2.map (fun l => pySplit " " (pyStrip l)), [],
           GenesetsTarget.names⟩ := by
      simp only [List.foldl_cons, List.foldl_nil]
      rw [genesets_step_header_names]
    have s5 : body3.foldl genesets_step
          ⟨body1.map pyStrip, body2.map (fun l => pySplit " " (pyStrip l)), [],
           GenesetsTarget.names⟩
        = ⟨body1.map pyStrip, body2.map (fun l => pySplit " " (pyStrip l)),
           body3.map (fun l => pySplit " " (pyStrip l)), GenesetsTarget.names⟩ := by
      rw [genesets_foldl_nonheader body3 h3
        ⟨body1.map pyStrip, body2.map (fun l => pySplit " " (pyStrip l)), [],
         GenesetsTarget.names⟩]
      rfl
    rw [List.foldl_append, List.foldl_append, List.foldl_append, List.foldl_append,
        List.foldl_append, s0, s1, s2, s3, s4, s5]
  · unfold pathway_to_genesets_mapping at hmem
    exact of_decide_eq_true (List.mem_filter.mp hmem).2

/-- C9 witness: one junk line before the headers, one line per section. -/
theorem c9_key_block_parsing_witness :
    (["junk line", "PATHWAYIDS"] : List String).foldl genesets_step genesets_init
        = (["PATHWAYIDS"] : List String).foldl genesets_step genesets_init
  ∧ (["PATHWAYIDS"] ++ ["hsa04110\n"] ++ ["ENTREZIDS"] ++ ["7157 1956\n"]
        ++ ["NAMES"] ++ ["TP53 EGFR\n"]).foldl genesets_step genesets_init
      = { pathway_ids := ["hsa04110"]
          entrez_ids := [["7157", "1956"]]
          gene_names := [["TP53", "EGFR"]]
          current := GenesetsTarget.names }
  ∧ ("hsa04110", (["7157", "1956"], ["TP53", "EGFR"]))
      ∈ pathway_to_genesets_mapping ["hsa04110"]
          ["PATHWAYIDS", "hsa04110", "ENTREZIDS", "7157 1956", "NAMES", "TP53 EGFR"]
  ∧ ("hsa04110", (["7157", "1956"], ["TP53", "EGFR"])).1 ∈ (["hsa04110"] : List String) := by
  have h := c9_key_block_parsing ["hsa04110"] ["junk line"] ["PATHWAYIDS"]
    ["hsa04110\n"] ["7157 1956\n"] ["TP53 EGFR\n"]
    ["PATHWAYIDS", "hsa04110", "ENTREZIDS", "7157 1956", "NAMES", "TP53 EGFR"]
    ("hsa04110", (["7157", "1956"], ["TP53", "EGFR"]))
    (by decide) (by decide) (by decide) (by decide) (by decide)
  exact ⟨h.1, h.2.1.trans (by decide), by decide, h.2.2⟩

/-- Python exception outcomes relevant to go_pathway: the caught
FileNotFoundError and any other propagating exception. -/
inductive PyError
  | fileNotFound
  | other (msg : String)
deriving Repr, DecidableEq

/-- The kegg_data mapping assembled by go_pathway when the table parsed;
values are held as the structured data that the code serializes with
js_injectable. -/
structure KeggData where
  pathwayIdToGeneSets : List (String × (List String × List String))
  pathwayIdToGeneGroups : List (String × List GeneGroup)
  pathwayData : List Pathway
  contrastData : List (String × List String)
  pathviews : List (String × String)

/-- The template context produced by create_report. -/
structure Report where
  reportName : String
  showKEGG : Bool
  kegg : Option KeggData

/-- create_report: the rendered context carries the report name, the
showKEGG flag (true exactly when kegg_data is present), and the kegg
entries when present. -/
def create_report (report_name : String) (kegg_data : Option KeggData) : Report :=
  { reportName := report_name
    showKEGG := kegg_data.isSome
    kegg := kegg_data }

/-- Python character replacement str.replace(old, new) for one-character
needles. -/
def replaceChar (old new : Char) (s : String) : String :=
  ⟨s.data.map (fun ch => if ch = old then new else ch)⟩

/-- slugify of wf/__init__.py. -/
def slugify (value : String) (keep_spaces : Bool) : String :=
  let value := replaceChar '/' '\x5f' value
  if ¬ keep_spaces then replaceChar ' ' '\x5f' value else value

/-- go_pathway after run_rscript returned: the table read result is either
the parsed rows or the exception reading them raised; the per-pathway XML
sidecar contents and image widths are supplied by xml_env. Only
FileNotFoundError is caught, and it degrades the report to one without the
KEGG section; any other error propagates. -/
def go_pathway_model (report_name : String)
    (table : Except PyError (List KeggRow))
    (contrast_rows : List ContrastRow) (species : Species)
    (xml_env : String → ℚ × List Entry)
    (genesets_lines : List String) : Except PyError Report :=
  match table with
  | Except.error PyError.fileNotFound => Except.ok (create_report report_name none)
  | Except.error e => Except.error e
  | Except.ok rows =>
    let pathways := parse_kegg_pathway_table rows
    let contrast_csv_data := parse_contrast_csv contrast_rows
    let contrast_genes := contrast_csv_data.map (fun kv => kv.1)
    let pathway_id_to_gene_groups := pathways.map (fun p =>
      (p.kegg_id,
       parse_gene_groups p contrast_genes (xml_env p.kegg_id).1 species
         (xml_env p.kegg_id).2))
    let pathviews := pathways.map (fun p =>
      (p.kegg_id, "./Pathview/" ++ slugify p.name false ++ ".png"))
    let mapping := pathway_to_genesets_mapping (pathways.map (fun p => p.kegg_id))
      genesets_lines
    Except.ok (create_report report_name (some
      { pathwayIdToGeneSets := mapping
        pathwayIdToGeneGroups := pathway_id_to_gene_groups
        pathwayData := pathways
        contrastData := contrast_csv_data
        pathviews := pathviews }))

/-- C7: when reading the pathway table fails with FileNotFoundError, the
run recovers: it completes normally (Except.ok) and renders the report
with showKEGG false and no pathway data at all. -/
theorem c7_missing_table_recovers (report_name : String)
    (contrast_rows : List ContrastRow) (species : Species)
    (xml_env : String → ℚ × List Entry) (genesets_lines : List String) :
    go_pathway_model report_name (Except.error PyError.fileNotFound)
        contrast_rows species xml_env genesets_lines
      = Except.ok { reportName := report_name, showKEGG := false, kegg := none } :=
  rfl

end PathwayWf
